import Mathlib

/-!
Verification development for `main.py` of the repository
`source-code-citra-digital` (HelloImageProject): a single-image pipeline
that loads a photo with OpenCV, applies a bilateral denoise, an unsharp
mask, and writes the result as a PNG.

Embedding notes.
* An `Image` models an OpenCV `numpy` array of dtype `uint8` with three
  interleaved channels (BGR): a height, a width and a total pixel function;
  only indices `i < height`, `j < width`, `c < 3` are meaningful.
* `float32` intermediate arithmetic is modelled by exact rationals `ℚ`;
  all values involved are small integers and differences thereof, which
  `float32` represents exactly for the fixed parameters of this program.
* `cv2.bilateralFilter` and `cv2.GaussianBlur` are external library calls.
  Their Gaussian weight tables use `exp`, which has no exact rational
  value, so the development is parameterised over the weight tables
  (`BWspace`, `BWcolor`, `GKgen`) while keeping the library's concrete
  structure: circular window of radius `d / 2`, joint spatial/colour
  weighting over the summed absolute channel differences, normalisation by
  the weight sum, `BORDER_REFLECT_101` border handling, rounding and
  saturation to `uint8` (`satCastU8`), and for the blur a separable kernel
  whose half-size is derived from sigma by the generator.
* `cv2.imwrite` signals failure (for example an unwritable output
  directory) through its boolean return value, logging a warning; it does
  not raise. Line 87 of `main.py` discards that value, which the model
  mirrors with the ignored `writeOk` argument of `process_image`.
-/

namespace Citra

/-- An OpenCV `uint8` 3-channel image: `pix i j c` is the value of channel
`c` (BGR order) at row `i`, column `j`. -/
structure Image where
  height : Nat
  width : Nat
  pix : Nat → Nat → Nat → Nat

/-- Every channel value fits in 8 bits. -/
def Image.valid8 (img : Image) : Prop := ∀ i j c, img.pix i j c ≤ 255

/-- A decoded file before `IMREAD_COLOR` channel conversion: the decoder
may yield 1 (grayscale), 3 (BGR) or 4 (BGRA) channels. -/
structure RawImage where
  height : Nat
  width : Nat
  channels : Nat
  pix : Nat → Nat → Nat → Nat

/-- Every channel value of the raw decode fits in 8 bits. -/
def RawImage.valid8 (raw : RawImage) : Prop := ∀ i j c, raw.pix i j c ≤ 255

/-- `cv2.imread(path, cv2.IMREAD_COLOR)` always produces a 3-channel BGR
image: a grayscale decode is replicated into all three channels
(`GRAY2BGR`), an alpha channel is dropped (`BGRA2BGR`), a BGR decode is
kept as is. -/
def imreadColor (raw : RawImage) : Image :=
  { height := raw.height
    width := raw.width
    pix := fun i j c => if raw.channels = 1 then raw.pix i j 0 else raw.pix i j c }

/-- OpenCV `borderInterpolate` with `BORDER_REFLECT_101` (the default
border): indices reflect about the edge pixels, `... 2 1 | 0 1 2 | 1 0 ...`;
a length-1 axis always maps to index 0, as in OpenCV. -/
def reflect101 (n : Nat) (p : Int) : Nat :=
  if n ≤ 1 then 0
  else
    let m : Int := 2 * (n : Int) - 2
    let q : Int := p.emod m
    if q < (n : Int) then q.toNat else (m - q).toNat

/-- The window offsets `-r, ..., r`. -/
def offsets (r : Nat) : List Int :=
  (List.range (2 * r + 1)).map (fun t => (t : Int) - (r : Int))

/-- OpenCV `saturate_cast<uchar>(cvRound x)`: round to the nearest
integer, then clamp into `[0, 255]`.  (The model rounds halves up where
`cvRound` rounds halves to even; no stated property depends on ties.) -/
def satCastU8 (x : ℚ) : Nat := (min (255 : ℤ) (max 0 (round x))).toNat

/-- `numpy` `.astype(np.uint8)` on a non-negative float: truncation toward
zero, i.e. the floor.  It is only applied after `np.clip(·, 0, 255)`. -/
def toU8trunc (x : ℚ) : Nat := (⌊x⌋).toNat

/-- `np.clip(x, lo, hi) = np.minimum(hi, np.maximum(x, lo))`. -/
def clipQ (x lo hi : ℚ) : ℚ := min hi (max x lo)

/-- Generator of a 1-D Gaussian kernel from a sigma, as an abstract model
of OpenCV `getGaussianKernel` with automatically derived size: it returns
the kernel half-size and the kernel weights. -/
abbrev GKgen := ℚ → Nat × (Int → ℚ)

/-- Abstract spatial weight table of `cv2.bilateralFilter`:
`ws sigmaSpace dx dy` models `exp(-(dx² + dy²) / (2 sigmaSpace²))`. -/
abbrev BWspace := ℚ → Int → Int → ℚ

/-- Abstract colour weight table of `cv2.bilateralFilter`:
`wc sigmaColor t` models `exp(-t² / (2 sigmaColor²))` where `t` is the sum
of the absolute channel differences. -/
abbrev BWcolor := ℚ → Nat → ℚ

/-- `cv2.GaussianBlur(img, (0,0), sigmaX, sigmaY)`: the kernel size is
derived from the sigmas by the generator `gk`; separable convolution over
`BORDER_REFLECT_101`-extended pixels, rounded and saturated to `uint8`. -/
def cv2GaussianBlur (gk : GKgen) (sigmaX sigmaY : ℚ) (img : Image) : Image :=
  let kx := gk sigmaX
  let ky := gk sigmaY
  { height := img.height
    width := img.width
    pix := fun i j c =>
      satCastU8 (((offsets ky.1).map (fun dy =>
        ((offsets kx.1).map (fun dx =>
          ky.2 dy * kx.2 dx *
            ((img.pix (reflect101 img.height ((i : Int) + dy))
              (reflect101 img.width ((j : Int) + dx)) c : ℚ)))).sum)).sum) }

/-- Absolute difference of two naturals. -/
def absDiff (a b : Nat) : Nat := max a b - min a b

/-- The summed absolute channel difference between the neighbour at
`(y, x)` and the centre pixel `(i, j)`, the quantity OpenCV feeds its
colour weight table. -/
def colorDist (img : Image) (i j y x : Nat) : Nat :=
  absDiff (img.pix y x 0) (img.pix i j 0) +
    absDiff (img.pix y x 1) (img.pix i j 1) +
    absDiff (img.pix y x 2) (img.pix i j 2)

/-- The circular neighbourhood OpenCV's bilateral filter visits: all
offsets `(dy, dx)` of the `(2r+1) × (2r+1)` square with
`dx² + dy² ≤ r²`. -/
def bilatNeighbors (r : Nat) : List (Int × Int) :=
  ((offsets r).map (fun dy =>
    ((offsets r).filter (fun dx => decide (dx * dx + dy * dy ≤ (r : Int) * (r : Int)))).map
      (fun dx => (dy, dx)))).flatten

/-- The joint bilateral weight of the neighbour at offset `p = (dy, dx)`
from centre `(i, j)`: spatial weight times colour weight of the summed
absolute channel difference, neighbours read through
`BORDER_REFLECT_101`. -/
def bilatWeight (ws : BWspace) (wc : BWcolor) (sc ss : ℚ) (img : Image)
    (i j : Nat) (p : Int × Int) : ℚ :=
  ws ss p.2 p.1 *
    wc sc (colorDist img i j (reflect101 img.height ((i : Int) + p.1))
      (reflect101 img.width ((j : Int) + p.2)))

/-- `cv2.bilateralFilter(img, d, sigmaColor, sigmaSpace)` for a `uint8`
BGR image: window radius `d / 2`, each output channel the weight-normalised
sum of the neighbourhood's values, rounded and saturated to `uint8`. -/
def cv2bilateralFilter (ws : BWspace) (wc : BWcolor) (img : Image) (d : Nat)
    (sigmaColor sigmaSpace : ℚ) : Image :=
  let radius := d / 2
  { height := img.height
    width := img.width
    pix := fun i j c =>
      let num := ((bilatNeighbors radius).map (fun p =>
        bilatWeight ws wc sigmaColor sigmaSpace img i j p *
          ((img.pix (reflect101 img.height ((i : Int) + p.1))
            (reflect101 img.width ((j : Int) + p.2)) c : ℚ)))).sum
      let den := ((bilatNeighbors radius).map (fun p =>
        bilatWeight ws wc sigmaColor sigmaSpace img i j p)).sum
      satCastU8 (num / den) }

/-- `bilateral_denoise` of `main.py`: a direct call into
`cv2.bilateralFilter`. -/
def bilateral_denoise (ws : BWspace) (wc : BWcolor) (img : Image) (d : Nat)
    (sigma_color sigma_space : ℚ) : Image :=
  cv2bilateralFilter ws wc img d sigma_color sigma_space

/-- `unsharp_mask` of `main.py`:
blur with `cv2.GaussianBlur(img, (0,0), sigmaX=radius, sigmaY=radius)`,
convert to float, `mask = img_f - blurred_f`,
`result = img_f + amount * mask`, clip to `[0, 255]`, back to `uint8`. -/
def unsharp_mask (gk : GKgen) (img : Image) (amount radius : ℚ) : Image :=
  let blurred := cv2GaussianBlur gk radius radius img
  { height := img.height
    width := img.width
    pix := fun i j c =>
      let img_f : ℚ := (img.pix i j c : ℚ)
      let blurred_f : ℚ := (blurred.pix i j c : ℚ)
      let mask : ℚ := img_f - blurred_f
      let result : ℚ := img_f + amount * mask
      toU8trunc (clipQ result 0 255) }

/-- Index of the last occurrence of `c`, as `str.rfind` in Python. -/
def lastIdxOf (c : Char) : List Char → Option Nat
  | [] => none
  | a :: rest =>
    match lastIdxOf c rest with
    | some k => some (k + 1)
    | none => if a = c then some 0 else none

/-- `os.path.basename`: everything after the last path separator. -/
def basenameL (l : List Char) : List Char :=
  match lastIdxOf '/' l with
  | some k => l.drop (k + 1)
  | none => l

/-- `os.path.basename` on strings. -/
def basename (s : String) : String := String.mk (basenameL s.toList)

/-- The root part of `os.path.splitext`: split at the last dot, but only
when some character strictly between the start of the base name and that
dot is not itself a dot (so `.bashrc` keeps its name whole). -/
def splitextRootL (l : List Char) : List Char :=
  let fIdx : Nat :=
    match lastIdxOf '/' l with
    | some k => k + 1
    | none => 0
  match lastIdxOf '.' l with
  | none => l
  | some dI =>
    if fIdx ≤ dI ∧
        (List.range (dI - fIdx)).any (fun t => decide (l.getD (fIdx + t) '.' ≠ '.')) then
      l.take dI
    else l

/-- `os.path.splitext(s)[0]` on strings. -/
def splitextRoot (s : String) : String := String.mk (splitextRootL s.toList)

/-- `os.path.join(a, b)` for a relative `b`: insert a separator unless `a`
already ends in one or is empty. -/
def joinPath (a b : String) : String :=
  if a = "" then b
  else match a.toList.getLast? with
    | some '/' => a ++ b
    | _ => a ++ "/" ++ b

/-- The hardcoded default input image name of `main.py`. -/
def INPUT_IMAGE_NAME : String := "img-3.jpg"

/-- The observable events of one run, in order: decode attempt, the
resolution/dtype print, the two transforms, the `cv2.imwrite` call, and
the final success print naming the output path. -/
inductive Ev where
  | decodeEv
  | infoEv (w h : Nat)
  | denoiseEv
  | sharpenEv
  | writeEv (path : String)
  | successEv (path : String)
  deriving DecidableEq

/-- The two exceptions `process_image` can raise. -/
inductive PErr where
  | fileNotFound (msg : String)
  | valueError (msg : String)
  deriving DecidableEq

/-- Whether an outcome is a normal return. -/
def exceptIsOk : Except PErr (String × Image) → Bool
  | Except.ok _ => true
  | Except.error _ => false

/-- `process_image(path_in, path_out)` of `main.py`.
`file` is the state of the filesystem at `path_in` seen through the two
load-stage checks: `none` when `os.path.isfile` is false, `some none` when
the file exists but `cv2.imread` returns `None`, `some (some raw)` when it
decodes.  `writeOk` is the boolean `cv2.imwrite` returns; the source
discards it, so it influences nothing.  The result is the event trace
paired with the outcome: the raised exception, or the output path and the
image handed to `cv2.imwrite`. -/
def process_image (ws : BWspace) (wc : BWcolor) (gk : GKgen)
    (file : Option (Option RawImage)) (path_in path_out : String)
    (writeOk : Bool) : List Ev × Except PErr (String × Image) :=
  match file with
  | none =>
    ([], Except.error (PErr.fileNotFound ("File input tidak ditemukan: " ++ path_in)))
  | some none =>
    ([Ev.decodeEv],
      Except.error (PErr.valueError
        "Gagal membaca citra — format mungkin tidak didukung atau file korup."))
  | some (some raw) =>
    let img := imreadColor raw
    let denoised := bilateral_denoise ws wc img 9 75 75
    let sharpened := unsharp_mask gk denoised 1 3
    let base := splitextRoot (basename path_in)
    let out_name := "result_" ++ base ++ ".png"
    let out_path := joinPath path_out out_name
    ([Ev.decodeEv, Ev.infoEv img.width img.height, Ev.denoiseEv, Ev.sharpenEv,
        Ev.writeEv out_path, Ev.successEv out_path],
      Except.ok (out_path, sharpened))

/-! Concrete instances used to exercise the theorems: trivial weight
tables (constant 1, i.e. a box average over the window) and a 1×1
constant-grey test image. -/

/-- A constant spatial weight table. -/
def ws0 : BWspace := fun _ _ _ => 1

/-- A constant colour weight table. -/
def wc0 : BWcolor := fun _ _ => 1

/-- A kernel generator returning the identity kernel (half-size 0,
weight 1). -/
def gk0 : GKgen := fun _ => (0, fun _ => 1)

/-- A 1×1 3-channel raw decode with every value 100. -/
def raw1 : RawImage :=
  { height := 1, width := 1, channels := 3, pix := fun _ _ _ => 100 }

/-- A 1×1 image with every value 100. -/
def img1 : Image := { height := 1, width := 1, pix := fun _ _ _ => 100 }

/-- The output path `process_image` hands to `cv2.imwrite`. -/
def outPathOf (path_in path_out : String) : String :=
  joinPath path_out ("result_" ++ splitextRoot (basename path_in) ++ ".png")

lemma satCastU8_le255 (x : ℚ) : satCastU8 x ≤ 255 :=
  Int.toNat_le.mpr (by exact_mod_cast min_le_left (255 : ℤ) (max 0 (round x)))

lemma toU8trunc_le255 (x : ℚ) (hx : x ≤ 255) : toU8trunc x ≤ 255 := by
  have h1 : (⌊x⌋ : ℚ) ≤ 255 := le_trans (Int.floor_le x) hx
  have h2 : ⌊x⌋ ≤ (255 : ℤ) := by exact_mod_cast h1
  exact Int.toNat_le.mpr (by exact_mod_cast h2)

lemma clipQ_le_hi (x : ℚ) : clipQ x 0 255 ≤ 255 := min_le_left _ _

/-- C1: when the input decodes, the run is exactly decode, info print,
denoise, sharpen, write, success print — no other transform — and the grid
handed to `cv2.imwrite` is the sharpener (amount 1, radius 3) applied to
the denoiser (diameter 9, colour tolerance 75, spatial tolerance 75)
applied to the decoded image. -/
theorem c1_pipeline_composition (ws : BWspace) (wc : BWcolor) (gk : GKgen)
    (raw : RawImage) (file : Option (Option RawImage)) (pin pout : String)
    (wok : Bool) (hf : file = some (some raw)) :
    process_image ws wc gk file pin pout wok =
      ([Ev.decodeEv, Ev.infoEv raw.width raw.height, Ev.denoiseEv, Ev.sharpenEv,
          Ev.writeEv (outPathOf pin pout), Ev.successEv (outPathOf pin pout)],
        Except.ok (outPathOf pin pout,
          unsharp_mask gk (bilateral_denoise ws wc (imreadColor raw) 9 75 75) 1 3)) := by
  subst hf; rfl

/-- Witness for C1 at a concrete decoded file. -/
theorem c1_witness :
    process_image ws0 wc0 gk0 (some (some raw1)) "img-3.jpg" "out" true =
      ([Ev.decodeEv, Ev.infoEv raw1.width raw1.height, Ev.denoiseEv, Ev.sharpenEv,
          Ev.writeEv (outPathOf "img-3.jpg" "out"), Ev.successEv (outPathOf "img-3.jpg" "out")],
        Except.ok (outPathOf "img-3.jpg" "out",
          unsharp_mask gk0 (bilateral_denoise ws0 wc0 (imreadColor raw1) 9 75 75) 1 3)) :=
  c1_pipeline_composition ws0 wc0 gk0 raw1 (some (some raw1)) "img-3.jpg" "out" true rfl

/-- C2: every output value of `unsharp_mask` is the clipped-and-truncated
`original + amount * (original - blurred)` where `blurred` is the Gaussian
blur with sigma `radius` in both axes and generator-derived kernel size;
and every output value is at most 255. -/
theorem c2_unsharp_formula (gk : GKgen) (img : Image) (amount radius : ℚ)
    (i j c : Nat) :
    (unsharp_mask gk img amount radius).pix i j c =
      toU8trunc (clipQ ((img.pix i j c : ℚ) +
        amount * ((img.pix i j c : ℚ) -
          ((cv2GaussianBlur gk radius radius img).pix i j c : ℚ))) 0 255) ∧
    (unsharp_mask gk img amount radius).pix i j c ≤ 255 :=
  ⟨rfl, toU8trunc_le255 _ (clipQ_le_hi _)⟩

/-- C3: with `amount = 0` the sharpener returns every pixel value of an
8-bit image unchanged. -/
theorem c3_amount_zero_identity (gk : GKgen) (img : Image) (h : img.valid8)
    (radius : ℚ) (i j c : Nat) :
    (unsharp_mask gk img 0 radius).pix i j c = img.pix i j c := by
  have hv : (0 : ℚ) ≤ (img.pix i j c : ℚ) := Nat.cast_nonneg _
  have hv255 : (img.pix i j c : ℚ) ≤ 255 := by exact_mod_cast h i j c
  show toU8trunc (clipQ ((img.pix i j c : ℚ) +
    0 * ((img.pix i j c : ℚ) -
      ((cv2GaussianBlur gk radius radius img).pix i j c : ℚ))) 0 255) = img.pix i j c
  rw [zero_mul, add_zero]
  unfold clipQ toU8trunc
  rw [max_eq_left hv, min_eq_right hv255, Int.floor_natCast, Int.toNat_natCast]

/-- Witness for C3 on the concrete image `img1`. -/
theorem c3_witness : (unsharp_mask gk0 img1 0 3).pix 0 0 0 = img1.pix 0 0 0 :=
  c3_amount_zero_identity gk0 img1 (fun _ _ _ => show (100 : Nat) ≤ 255 by decide) 3 0 0 0

/-- C4: for any 8-bit image and any parameters, the denoiser's output and
the sharpener-after-denoiser output both keep the input's height and
width, and every output channel value lies in `[0, 255]` (values are `Nat`,
hence at least 0). -/
theorem c4_shape_and_range (ws : BWspace) (wc : BWcolor) (gk : GKgen)
    (img : Image) (h : img.valid8) (d : Nat) (sc ss amount radius : ℚ) :
    (bilateral_denoise ws wc img d sc ss).height = img.height ∧
    (bilateral_denoise ws wc img d sc ss).width = img.width ∧
    (bilateral_denoise ws wc img d sc ss).valid8 ∧
    (unsharp_mask gk (bilateral_denoise ws wc img d sc ss) amount radius).height = img.height ∧
    (unsharp_mask gk (bilateral_denoise ws wc img d sc ss) amount radius).width = img.width ∧
    (unsharp_mask gk (bilateral_denoise ws wc img d sc ss) amount radius).valid8 :=
  ⟨rfl, rfl, fun _ _ _ => satCastU8_le255 _, rfl, rfl,
    fun _ _ _ => toU8trunc_le255 _ (clipQ_le_hi _)⟩

/-- Witness for C4 on the concrete image `img1` with the program's fixed
parameters. -/
theorem c4_witness :
    (bilateral_denoise ws0 wc0 img1 9 75 75).height = img1.height ∧
    (bilateral_denoise ws0 wc0 img1 9 75 75).width = img1.width ∧
    (bilateral_denoise ws0 wc0 img1 9 75 75).valid8 ∧
    (unsharp_mask gk0 (bilateral_denoise ws0 wc0 img1 9 75 75) 1 3).height = img1.height ∧
    (unsharp_mask gk0 (bilateral_denoise ws0 wc0 img1 9 75 75) 1 3).width = img1.width ∧
    (unsharp_mask gk0 (bilateral_denoise ws0 wc0 img1 9 75 75) 1 3).valid8 :=
  c4_shape_and_range ws0 wc0 gk0 img1 (fun _ _ _ => show (100 : Nat) ≤ 255 by decide) 9 75 75 1 3

/-- C5: a missing input file raises the file-not-found error with an empty
event trace: no decode, denoise, sharpen or write step runs and no output
is produced. -/
theorem c5_missing_input (ws : BWspace) (wc : BWcolor) (gk : GKgen)
    (file : Option (Option RawImage)) (pin pout : String) (wok : Bool)
    (hf : file = none) :
    process_image ws wc gk file pin pout wok =
      ([], Except.error (PErr.fileNotFound ("File input tidak ditemukan: " ++ pin))) := by
  subst hf; rfl

/-- Witness for C5 at a concrete missing path. -/
theorem c5_witness :
    process_image ws0 wc0 gk0 none "images/img-3.jpg" "out" true =
      ([], Except.error
        (PErr.fileNotFound ("File input tidak ditemukan: " ++ "images/img-3.jpg"))) :=
  c5_missing_input ws0 wc0 gk0 none "images/img-3.jpg" "out" true rfl

/-- C6: an existing but undecodable file raises the decode-failure error
after only the decode attempt: the trace is exactly the decode event, so
denoise, sharpen and write never run and no output is produced. -/
theorem c6_decode_failure (ws : BWspace) (wc : BWcolor) (gk : GKgen)
    (file : Option (Option RawImage)) (pin pout : String) (wok : Bool)
    (hf : file = some none) :
    process_image ws wc gk file pin pout wok =
      ([Ev.decodeEv], Except.error (PErr.valueError
        "Gagal membaca citra — format mungkin tidak didukung atau file korup.")) := by
  subst hf; rfl

/-- Witness for C6 at a concrete zero-byte file. -/
theorem c6_witness :
    process_image ws0 wc0 gk0 (some none) "images/empty.jpg" "out" true =
      ([Ev.decodeEv], Except.error (PErr.valueError
        "Gagal membaca citra — format mungkin tidak didukung atau file korup.")) :=
  c6_decode_failure ws0 wc0 gk0 (some none) "images/empty.jpg" "out" true rfl

/-- C7: on a successful run the output path is the output directory joined
with `result_` ++ (base name of the input with its extension removed) ++
`.png`; concretely, the default input `img-3.jpg` yields
`result_img-3.png`. -/
theorem c7_output_name (ws : BWspace) (wc : BWcolor) (gk : GKgen)
    (raw : RawImage) (file : Option (Option RawImage)) (pin pout : String)
    (wok : Bool) (hf : file = some (some raw)) :
    (∃ img, (process_image ws wc gk file pin pout wok).2 =
      Except.ok (joinPath pout ("result_" ++ splitextRoot (basename pin) ++ ".png"), img)) ∧
    splitextRoot (basename INPUT_IMAGE_NAME) = "img-3" ∧
    "result_" ++ splitextRoot (basename INPUT_IMAGE_NAME) ++ ".png" = "result_img-3.png" := by
  subst hf
  exact ⟨⟨_, rfl⟩, by decide, by decide⟩

/-- Witness for C7 at a concrete decoded file. -/
theorem c7_witness :
    (∃ img, (process_image ws0 wc0 gk0 (some (some raw1)) "img-3.jpg" "out" true).2 =
      Except.ok (joinPath "out"
        ("result_" ++ splitextRoot (basename "img-3.jpg") ++ ".png"), img)) ∧
    splitextRoot (basename INPUT_IMAGE_NAME) = "img-3" ∧
    "result_" ++ splitextRoot (basename INPUT_IMAGE_NAME) ++ ".png" = "result_img-3.png" :=
  c7_output_name ws0 wc0 gk0 raw1 (some (some raw1)) "img-3.jpg" "out" true rfl

/-- C8 counterexample: on a concrete run in which `cv2.imwrite` fails
(`writeOk = false`, e.g. an unwritable output directory), the run still
ends in a normal return — no error propagates, so the process exits with
status zero — and the success message naming the output path is printed,
refuting the claim that the failure is fatal and the message suppressed. -/
theorem c8_counterexample :
    exceptIsOk (process_image ws0 wc0 gk0 (some (some raw1)) "img-3.jpg" "out" false).2
        = true ∧
    Ev.successEv "out/result_img-3.png" ∈
      (process_image ws0 wc0 gk0 (some (some raw1)) "img-3.jpg" "out" false).1 := by
  exact ⟨rfl, by decide⟩

/-- C8 amended: `process_image` discards the boolean through which
`cv2.imwrite` reports failure (such as an unwritable output directory), so
even when the write fails the run returns normally — the process exits
with status zero — and the success message naming the output path is still
printed. -/
theorem c8_write_failure_ignored (ws : BWspace) (wc : BWcolor) (gk : GKgen)
    (raw : RawImage) (file : Option (Option RawImage)) (pin pout : String)
    (hf : file = some (some raw)) :
    exceptIsOk (process_image ws wc gk file pin pout false).2 = true ∧
    Ev.successEv (outPathOf pin pout) ∈ (process_image ws wc gk file pin pout false).1 := by
  subst hf
  exact ⟨rfl, by simp [process_image, outPathOf]⟩

/-- Witness for the amended C8 at a concrete failing write. -/
theorem c8_witness :
    exceptIsOk (process_image ws0 wc0 gk0 (some (some raw1)) "a/b.jpg" "out" false).2
        = true ∧
    Ev.successEv (outPathOf "a/b.jpg" "out") ∈
      (process_image ws0 wc0 gk0 (some (some raw1)) "a/b.jpg" "out" false).1 :=
  c8_write_failure_ignored ws0 wc0 gk0 raw1 (some (some raw1)) "a/b.jpg" "out" rfl

/-- C9: the pipeline is deterministic — two runs over the same decoded
file state, the same paths and the same write outcome produce identical
event traces and identical outcomes (hence, the PNG encoder being a
function of the written grid, byte-identical output files). -/
theorem c9_deterministic (ws : BWspace) (wc : BWcolor) (gk : GKgen)
    (f1 f2 : Option (Option RawImage)) (p1 p2 o1 o2 : String) (w1 w2 : Bool)
    (hf : f1 = f2) (hp : p1 = p2) (ho : o1 = o2) (hw : w1 = w2) :
    process_image ws wc gk f1 p1 o1 w1 = process_image ws wc gk f2 p2 o2 w2 := by
  subst hf; subst hp; subst ho; subst hw; rfl

/-- Witness for C9 at a concrete run. -/
theorem c9_witness :
    process_image ws0 wc0 gk0 (some (some raw1)) "img-3.jpg" "out" true =
      process_image ws0 wc0 gk0 (some (some raw1)) "img-3.jpg" "out" true :=
  c9_deterministic ws0 wc0 gk0 (some (some raw1)) (some (some raw1))
    "img-3.jpg" "img-3.jpg" "out" "out" true true rfl rfl rfl rfl

/-- C10: `IMREAD_COLOR` decoding always yields a 3-channel 8-bit image of
the source's dimensions by auto-conversion, never rejection: a grayscale
decode is replicated into all three channels, a 3- or 4-channel decode
keeps its first three channels (alpha dropped). -/
theorem c10_forced_color (raw : RawImage) (h : raw.valid8)
    (hch : raw.channels = 1 ∨ raw.channels = 3 ∨ raw.channels = 4) :
    (imreadColor raw).height = raw.height ∧
    (imreadColor raw).width = raw.width ∧
    (imreadColor raw).valid8 ∧
    (raw.channels = 1 → ∀ i j c, (imreadColor raw).pix i j c = raw.pix i j 0) ∧
    (raw.channels ≠ 1 → ∀ i j c, (imreadColor raw).pix i j c = raw.pix i j c) := by
  refine ⟨rfl, rfl, ?_, ?_, ?_⟩
  · intro i j c
    show (if raw.channels = 1 then raw.pix i j 0 else raw.pix i j c) ≤ 255
    split
    · exact h i j 0
    · exact h i j c
  · intro h1 i j c
    simp [imreadColor, h1]
  · intro h1 i j c
    simp [imreadColor, h1]

/-- Witness for C10 on the concrete 3-channel decode `raw1`. -/
theorem c10_witness :
    (imreadColor raw1).height = raw1.height ∧
    (imreadColor raw1).width = raw1.width ∧
    (imreadColor raw1).valid8 ∧
    (raw1.channels = 1 → ∀ i j c, (imreadColor raw1).pix i j c = raw1.pix i j 0) ∧
    (raw1.channels ≠ 1 → ∀ i j c, (imreadColor raw1).pix i j c = raw1.pix i j c) :=
  c10_forced_color raw1 (fun _ _ _ => show (100 : Nat) ≤ 255 by decide) (Or.inr (Or.inl rfl))

end Citra
